import Mathlib

/-!
Verification development for the geckos3 repository.

The repository ships a single client-side demo script, `src/test-boto3.py`,
which exercises an S3-compatible object-storage core (bucket lifecycle,
object put/get/head/list/delete, prefix listing, content ETag). The core
itself is described by the design specification rather than shipped as
source, so the store operations below are modelled from the spec
(Bucket Registry, Content Store, Metadata Index, Object Service, Listing
Engine), while the demo script's own control flow and request sequence are
embedded directly from `test-boto3.py`.

Keys and payloads are byte sequences; bytes are modelled as `Nat`.
-/

/-- Byte sequence of a string. The demo uses only ASCII keys and payloads,
for which the character codes are exactly the UTF-8 bytes. -/
def bytesOf (s : String) : List Nat :=
  s.data.map Char.toNat

/-- Byte-lexicographic order (non-strict) on byte sequences. -/
def lexLe : List Nat → List Nat → Bool
  | [], _ => true
  | _ :: _, [] => false
  | a :: as, b :: bs => if a < b then true else if b < a then false else lexLe as bs

/-- Byte-sequence prefix test: `bytesIsPre p s` holds when `p` is a prefix of `s`. -/
def bytesIsPre : List Nat → List Nat → Bool
  | [], _ => true
  | _ :: _, [] => false
  | a :: as, b :: bs => a == b && bytesIsPre as bs

/-- String prefix test, taken on the underlying bytes. -/
def strIsPre (p s : String) : Bool :=
  bytesIsPre (bytesOf p) (bytesOf s)

/-- Modelled from the spec: the deterministic content digest used as the
ETag (Content Store §4.1; ETag contract §6). A concrete 64-bit rolling
hash of the payload bytes; any deterministic function of the content
satisfies the contract. -/
def hashBytes (bs : List Nat) : Nat :=
  bs.foldl (fun h b => (h * 257 + b % 256) % 18446744073709551616) 5381

/-- Object metadata kept by the Metadata Index (§3, §4.2): size, content
digest, and the content reference into the Content Store. -/
structure ObjMeta where
  size : Nat
  digest : Nat
  contentRef : Nat
  deriving DecidableEq

/-- Typed failures of the core (§6, §7). -/
inductive S3Error where
  | bucketNotFound
  | bucketAlreadyExists
  | bucketNotEmpty
  | notFound
  | ioFailure
  deriving DecidableEq

instance {ε : Type u} {α : Type v} [DecidableEq ε] [DecidableEq α] :
    DecidableEq (Except ε α)
  | .error a, .error b =>
    if h : a = b then .isTrue (congrArg Except.error h)
    else .isFalse fun hc => h (by injection hc)
  | .error _, .ok _ => .isFalse fun hc => Except.noConfusion hc
  | .ok _, .error _ => .isFalse fun hc => Except.noConfusion hc
  | .ok a, .ok b =>
    if h : a = b then .isTrue (congrArg Except.ok h)
    else .isFalse fun hc => h (by injection hc)

/-- Modelled from the spec: the persistent state of the storage core (§2,
§3) — the Bucket Registry (existing bucket names), the Content Store
(payloads addressed by their position), and the Metadata Index mapping
`(bucket, key)` to object metadata. -/
structure S3State where
  buckets : List String
  contentStore : List (List Nat)
  index : List (String × String × ObjMeta)
  deriving DecidableEq

/-- The empty store: no buckets, no content, no metadata. -/
def S3State.init : S3State := ⟨[], [], []⟩

/-- Does a Metadata Index entry belong to bucket `B` and key `K`? -/
def entryMatches (B K : String) (e : String × String × ObjMeta) : Bool :=
  e.1 == B && e.2.1 == K

/-- Modelled from the spec: Bucket Registry `create` (§4.3) — fails with
`BucketAlreadyExists` when the name is present. -/
def createBucket (s : S3State) (B : String) : Except S3Error S3State :=
  if B ∈ s.buckets then .error .bucketAlreadyExists
  else .ok { s with buckets := B :: s.buckets }

/-- Modelled from the spec: Bucket Registry `delete` (§4.3) — fails with
`BucketNotEmpty` when the Metadata Index reports at least one key in the
bucket, and with `BucketNotFound` when the bucket is absent. -/
def deleteBucket (s : S3State) (B : String) : Except S3Error S3State :=
  if B ∈ s.buckets then
    if s.index.any (fun e => e.1 == B) then .error .bucketNotEmpty
    else .ok { s with buckets := s.buckets.erase B }
  else .error .bucketNotFound

/-- Modelled from the spec: Object Service `putObject` (§4.4) — checks the
bucket exists, durably appends the payload to the Content Store, computes
size and digest, and atomically replaces the Metadata Index entry for the
key. -/
def putObject (s : S3State) (B K : String) (payload : List Nat) :
    Except S3Error S3State :=
  if B ∈ s.buckets then
    .ok { s with
          contentStore := s.contentStore ++ [payload],
          index := (B, K, ⟨payload.length, hashBytes payload, s.contentStore.length⟩)
            :: s.index.filter (fun e => !entryMatches B K e) }
  else .error .bucketNotFound

/-- Modelled from the spec: Object Service `getObject` (§4.4) — fails with
`NotFound` when the key is absent, otherwise loads the payload through the
content reference. -/
def getObject (s : S3State) (B K : String) :
    Except S3Error (List Nat × ObjMeta) :=
  match s.index.find? (entryMatches B K) with
  | none => .error .notFound
  | some e =>
    match s.contentStore[e.2.2.contentRef]? with
    | none => .error .ioFailure
    | some payload => .ok (payload, e.2.2)

/-- Modelled from the spec: Object Service `headObject` (§4.4) — the same
existence check as `getObject`, with no payload load. -/
def headObject (s : S3State) (B K : String) : Except S3Error ObjMeta :=
  match s.index.find? (entryMatches B K) with
  | none => .error .notFound
  | some e => .ok e.2.2

/-- Modelled from the spec: Object Service `deleteObject` (§4.4), with the
documented policy choice that deleting an absent key fails with
`NotFound`. -/
def deleteObject (s : S3State) (B K : String) : Except S3Error S3State :=
  if s.index.any (entryMatches B K) then
    .ok { s with index := s.index.filter (fun e => !entryMatches B K e) }
  else .error .notFound

/-- Key ordering used by the Listing Engine: byte-lexicographic on the key
of each listing entry. -/
def keyLe (p q : String × ObjMeta) : Prop :=
  lexLe (bytesOf p.1) (bytesOf q.1) = true

instance : DecidableRel keyLe := fun p q =>
  decidable_of_iff (lexLe (bytesOf p.1) (bytesOf q.1) = true) Iff.rfl

/-- Modelled from the spec: Listing Engine (§4.5) — enumerates the keys of
the bucket matching the given prefix, in byte-lexicographic order. -/
def listObjects (s : S3State) (B pre : String) :
    Except S3Error (List (String × ObjMeta)) :=
  if B ∈ s.buckets then
    .ok (List.insertionSort keyLe
      (s.index.filterMap fun e =>
        if e.1 == B && strIsPre pre e.2.1 then some (e.2.1, e.2.2) else none))
  else .error .bucketNotFound

/-- Modelled from the spec: `putObject` with an injected failure point
(§4.4, §7). `failAt = some 0` fails before the content write, `failAt =
some 1` fails after the content write but before the metadata commit, and
`failAt = none` or any later point runs to completion. Returns the state
left behind together with the error, if any. -/
def putObjectF (s : S3State) (B K : String) (payload : List Nat)
    (failAt : Option Nat) : S3State × Option S3Error :=
  if B ∈ s.buckets then
    if failAt = some 0 then (s, some .ioFailure)
    else
      let s1 : S3State := { s with contentStore := s.contentStore ++ [payload] }
      if failAt = some 1 then (s1, some .ioFailure)
      else
        ({ s1 with
            index := (B, K, ⟨payload.length, hashBytes payload, s.contentStore.length⟩)
              :: s.index.filter (fun e => !entryMatches B K e) }, none)
  else (s, some .bucketNotFound)

/-- Every content reference in the Metadata Index points inside the
Content Store — an invariant of every reachable state. -/
def RefsValid (s : S3State) : Prop :=
  ∀ e ∈ s.index, e.2.2.contentRef < s.contentStore.length

instance (s : S3State) : Decidable (RefsValid s) :=
  inferInstanceAs (Decidable (∀ e ∈ s.index, e.2.2.contentRef < s.contentStore.length))

/-- An S3 request as issued by the demo script. -/
inductive S3Op where
  | createBucket (name : String)
  | putObject (bucket key : String) (payload : List Nat)
  | listObjects (bucket pre : String)
  | getObject (bucket key : String)
  | headObject (bucket key : String)
  | deleteObject (bucket key : String)
  | deleteBucket (name : String)
  deriving DecidableEq

/-- Result payload of a successful request (§6). -/
inductive OpResult where
  | unit
  | gotObject (payload : List Nat) (m : ObjMeta)
  | gotMeta (m : ObjMeta)
  | listing (entries : List (String × ObjMeta))
  deriving DecidableEq

/-- Single atomic step of the core (§4): each request either succeeds and
moves to the new state, or fails with a typed error leaving the state
unchanged. -/
def execOp (s : S3State) : S3Op → S3State × Except S3Error OpResult
  | .createBucket n =>
    match createBucket s n with
    | .ok t => (t, .ok .unit)
    | .error e => (s, .error e)
  | .putObject B K p =>
    match putObject s B K p with
    | .ok t => (t, .ok .unit)
    | .error e => (s, .error e)
  | .listObjects B pre =>
    match listObjects s B pre with
    | .ok es => (s, .ok (.listing es))
    | .error e => (s, .error e)
  | .getObject B K =>
    match getObject s B K with
    | .ok r => (s, .ok (.gotObject r.1 r.2))
    | .error e => (s, .error e)
  | .headObject B K =>
    match headObject s B K with
    | .ok m => (s, .ok (.gotMeta m))
    | .error e => (s, .error e)
  | .deleteObject B K =>
    match deleteObject s B K with
    | .ok t => (t, .ok .unit)
    | .error e => (s, .error e)
  | .deleteBucket n =>
    match deleteBucket s n with
    | .ok t => (t, .ok .unit)
    | .error e => (s, .error e)

/-- Fold of `execOp` over a request sequence, keeping only the state. -/
def execOps (s : S3State) (ops : List S3Op) : S3State :=
  ops.foldl (fun t o => (execOp t o).1) s

/-- The exact sequence of S3 requests issued by `main` in
`src/test-boto3.py`, in program order: create the bucket, upload
`test-file.txt`, list, upload the three directory-structure files, list
again, download and head `test-file.txt`, list with prefix `dir1/`,
delete the four objects, delete the bucket. -/
def scriptOps : List S3Op :=
  [ .createBucket "testbucket",
    .putObject "testbucket" "test-file.txt" (bytesOf "Hello, geckos3 from Python!"),
    .listObjects "testbucket" "",
    .putObject "testbucket" "dir1/file1.txt" (bytesOf "File 1"),
    .putObject "testbucket" "dir1/file2.txt" (bytesOf "File 2"),
    .putObject "testbucket" "dir2/file3.txt" (bytesOf "File 3"),
    .listObjects "testbucket" "",
    .getObject "testbucket" "test-file.txt",
    .headObject "testbucket" "test-file.txt",
    .listObjects "testbucket" "dir1/",
    .deleteObject "testbucket" "test-file.txt",
    .deleteObject "testbucket" "dir1/file1.txt",
    .deleteObject "testbucket" "dir1/file2.txt",
    .deleteObject "testbucket" "dir2/file3.txt",
    .deleteBucket "testbucket" ]

/-- Runs the body of the script's `try` block against an oracle `outs`
saying whether each successive S3 call succeeds (a missing entry means
success). Returns the calls actually issued and whether the block ran to
completion: the first raising call aborts the rest, as a Python exception
does. -/
def runScriptAux : List S3Op → List Bool → List S3Op × Bool
  | [], _ => ([], true)
  | o :: os, [] =>
    let r := runScriptAux os []
    (o :: r.1, r.2)
  | o :: os, b :: bs =>
    if b then
      let r := runScriptAux os bs
      (o :: r.1, r.2)
    else ([o], false)

/-- Observable outcome of one run of the demo script process: the S3
calls it issued, its exit status, and whether it printed an error line to
stderr. -/
structure ScriptOutcome where
  issued : List S3Op
  exitCode : Nat
  errPrinted : Bool
  deriving DecidableEq

/-- The demo script as a function of the success oracle, mirroring the
`try`/`except` in `main`: on the first raising call it prints the error to
stderr and exits with status 1; if every call succeeds it completes and
exits with status 0. -/
def scriptRun (outs : List Bool) : ScriptOutcome :=
  let r := runScriptAux scriptOps outs
  ⟨r.1, if r.2 then 0 else 1, !r.2⟩

/-- Position of the first failing call under the oracle, if any. -/
def firstFalse : List S3Op → List Bool → Option Nat
  | [], _ => none
  | _ :: _, [] => none
  | _ :: os, b :: bs => if b then (firstFalse os bs).map (· + 1) else some 0

/-- Keys passed to `put_object` by a request sequence, in order. -/
def putKeysOf (ops : List S3Op) : List String :=
  ops.filterMap fun o =>
    match o with
    | .putObject _ k _ => some k
    | _ => none

/-- Keys passed to `delete_object` by a request sequence, in order. -/
def delKeysOf (ops : List S3Op) : List String :=
  ops.filterMap fun o =>
    match o with
    | .deleteObject _ k => some k
    | _ => none

/-- Is the request an object-level operation (rather than a bucket
lifecycle operation)? -/
def isObjectOp : S3Op → Bool
  | .createBucket _ => false
  | .deleteBucket _ => false
  | _ => true

/-- Sizes reported by a listing response (empty for any other response). -/
def listingSizes : Except S3Error OpResult → List Nat
  | .ok (.listing es) => es.map (fun e => e.2.size)
  | _ => []

/-- The payload uploaded by the demo script: `b"Hello, geckos3 from Python!"`. -/
def demoPayload : List Nat := bytesOf "Hello, geckos3 from Python!"

/-- Demo state after creating `testbucket` in the empty store. -/
def demoS1 : S3State := (execOp S3State.init (.createBucket "testbucket")).1

/-- Demo state after additionally uploading `test-file.txt`. -/
def demoS2 : S3State :=
  (execOp demoS1 (.putObject "testbucket" "test-file.txt" demoPayload)).1

/-- Demo state after additionally deleting `test-file.txt`. -/
def demoS3 : S3State :=
  (execOp demoS2 (.deleteObject "testbucket" "test-file.txt")).1

/-- Concrete store with one empty bucket `b`, used to instantiate the
universally quantified theorems. -/
def wState1 : S3State := ⟨["b"], [], []⟩

/-- Concrete store with one bucket `b` holding one object `k`, used to
instantiate the universally quantified theorems. -/
def wState2 : S3State := ⟨["b"], [[1]], [("b", "k", ⟨1, hashBytes [1], 0⟩)]⟩

/-- Concrete store used for the listing theorem: bucket `b` holds exactly
the three keys of the demo's directory structure. -/
def wState3 : S3State :=
  ⟨["b"],
   [bytesOf "File 1", bytesOf "File 2", bytesOf "File 3"],
   [("b", "dir1/file1.txt", ⟨6, hashBytes (bytesOf "File 1"), 0⟩),
    ("b", "dir1/file2.txt", ⟨6, hashBytes (bytesOf "File 2"), 1⟩),
    ("b", "dir2/file3.txt", ⟨6, hashBytes (bytesOf "File 3"), 2⟩)]⟩

/-- The listing the demo expects for prefix `dir1/` over the three
directory-structure keys, with its metadata. -/
def wList5 : List (String × ObjMeta) :=
  [("dir1/file1.txt", ⟨6, hashBytes (bytesOf "File 1"), 0⟩),
   ("dir1/file2.txt", ⟨6, hashBytes (bytesOf "File 2"), 1⟩)]

/-! ## Order lemmas for the listing relation -/

theorem lexLe_total : ∀ a b : List Nat, lexLe a b = true ∨ lexLe b a = true
  | [], _ => Or.inl rfl
  | _ :: _, [] => Or.inr rfl
  | a :: as, b :: bs => by
    by_cases hab : a < b
    · exact Or.inl (by simp [lexLe, hab])
    · by_cases hba : b < a
      · exact Or.inr (by simp [lexLe, hba])
      · rcases lexLe_total as bs with h | h
        · exact Or.inl (by simp [lexLe, hab, hba, h])
        · exact Or.inr (by simp [lexLe, hba, hab, h])

theorem lexLe_trans :
    ∀ a b c : List Nat, lexLe a b = true → lexLe b c = true → lexLe a c = true
  | [], _, _, _, _ => rfl
  | _ :: _, [], _, h1, _ => by simp [lexLe] at h1
  | _ :: _, _ :: _, [], _, h2 => by simp [lexLe] at h2
  | a :: as, b :: bs, c :: cs, h1, h2 => by
    simp only [lexLe] at h1 h2 ⊢
    rcases Nat.lt_trichotomy a b with hab | hab | hab
    · rcases Nat.lt_trichotomy b c with hbc | hbc | hbc
      · simp [Nat.lt_trans hab hbc]
      · subst hbc; simp [hab]
      · simp [Nat.lt_asymm hbc, hbc] at h2
    · subst hab
      simp only [Nat.lt_irrefl, if_false] at h1
      rcases Nat.lt_trichotomy a c with hac | hac | hac
      · simp [hac]
      · subst hac
        simp only [Nat.lt_irrefl, if_false] at h2 ⊢
        exact lexLe_trans as bs cs h1 h2
      · simp [Nat.lt_asymm hac, hac] at h2
    · simp [Nat.lt_asymm hab, hab] at h1

instance : IsTotal (String × ObjMeta) keyLe :=
  ⟨fun p q => lexLe_total (bytesOf p.1) (bytesOf q.1)⟩

instance : IsTrans (String × ObjMeta) keyLe :=
  ⟨fun p q r => lexLe_trans (bytesOf p.1) (bytesOf q.1) (bytesOf r.1)⟩

/-! ## Claim theorems -/

/-- C1: for every bucket `B` present in the store, key `K` and payload,
`put(B,K,payload)` followed by `get(B,K)` returns exactly the bytes of
`payload`, with a digest equal to the deterministic hash of the payload
(the ETag is a function of the content alone) and the correct size. -/
theorem C1_put_get_roundtrip (s : S3State) (B K : String) (payload : List Nat)
    (h : B ∈ s.buckets) :
    ∃ s2 m, putObject s B K payload = .ok s2 ∧
      getObject s2 B K = .ok (payload, m) ∧
      m.digest = hashBytes payload ∧ m.size = payload.length := by
  have hput : putObject s B K payload = .ok
      { s with
        contentStore := s.contentStore ++ [payload],
        index := (B, K, ⟨payload.length, hashBytes payload, s.contentStore.length⟩)
          :: s.index.filter (fun e => !entryMatches B K e) } := by
    simp [putObject, h]
  refine ⟨_, ⟨payload.length, hashBytes payload, s.contentStore.length⟩, hput, ?_, rfl, rfl⟩
  simp only [getObject]
  rw [List.find?_cons_of_pos _ (by simp [entryMatches])]
  simp [List.getElem?_concat_length]

/-- Witness for C1 at a concrete store, bucket, key and payload. -/
theorem C1_put_get_roundtrip_witness :
    "b" ∈ wState1.buckets ∧
      ∃ s2 m, putObject wState1 "b" "k" [104, 105] = .ok s2 ∧
        getObject s2 "b" "k" = .ok ([104, 105], m) ∧
        m.digest = hashBytes [104, 105] ∧ m.size = [104, 105].length :=
  ⟨by decide, C1_put_get_roundtrip wState1 "b" "k" [104, 105] (by decide)⟩

/-- C3: for every bucket name `B` not yet created, `create(B)` succeeds,
and a second `create(B)` on the resulting store fails with
`BucketAlreadyExists`. -/
theorem C3_create_then_create_fails (s : S3State) (B : String)
    (h : B ∉ s.buckets) :
    ∃ s2, createBucket s B = .ok s2 ∧
      createBucket s2 B = .error .bucketAlreadyExists := by
  have h1 : createBucket s B = .ok { s with buckets := B :: s.buckets } := by
    simp [createBucket, h]
  exact ⟨_, h1, by simp [createBucket]⟩

/-- Witness for C3 on the empty store. -/
theorem C3_create_then_create_fails_witness :
    "b" ∉ S3State.init.buckets ∧
      ∃ s2, createBucket S3State.init "b" = .ok s2 ∧
        createBucket s2 "b" = .error .bucketAlreadyExists :=
  ⟨by decide, C3_create_then_create_fails S3State.init "b" (by decide)⟩

/-- C4: for every store, bucket `B` and key `K` present in it,
`deleteObject(B,K)` succeeds and an immediately following `getObject(B,K)`
fails with `NotFound`. -/
theorem C4_delete_then_get_notFound (s : S3State) (B K : String)
    (h : s.index.any (entryMatches B K) = true) :
    ∃ s2, deleteObject s B K = .ok s2 ∧
      getObject s2 B K = .error .notFound := by
  have h1 : deleteObject s B K = .ok
      { s with index := s.index.filter (fun e => !entryMatches B K e) } := by
    simp only [deleteObject, h, if_true]
  refine ⟨_, h1, ?_⟩
  simp only [getObject]
  have hnone : (s.index.filter (fun e => !entryMatches B K e)).find?
      (entryMatches B K) = none := by
    rw [List.find?_eq_none]
    intro x hx
    have hxf := (List.mem_filter.mp hx).2
    simp only [Bool.not_eq_eq_eq_not, Bool.not_true] at hxf
    simp [hxf]
  rw [hnone]

/-- Witness for C4 at a concrete one-object store. -/
theorem C4_delete_then_get_notFound_witness :
    wState2.index.any (entryMatches "b" "k") = true ∧
      ∃ s2, deleteObject wState2 "b" "k" = .ok s2 ∧
        getObject s2 "b" "k" = .error .notFound :=
  ⟨by decide, C4_delete_then_get_notFound wState2 "b" "k" (by decide)⟩

/-- C5: every successful listing is in byte-lexicographic key order,
contains only entries of the listed bucket matching the prefix, and
contains every such entry of the Metadata Index. Instantiated (see the
witness) at a bucket holding exactly `dir1/file1.txt`, `dir1/file2.txt`
and `dir2/file3.txt` with prefix `dir1/`, it returns exactly the first
two keys in order. -/
theorem C5_listing_sorted_filtered (s : S3State) (B pre : String)
    (l : List (String × ObjMeta)) (h : listObjects s B pre = .ok l) :
    l.Sorted keyLe ∧
      (∀ e ∈ l, strIsPre pre e.1 = true ∧ (B, e.1, e.2) ∈ s.index) ∧
      (∀ e ∈ s.index, e.1 = B → strIsPre pre e.2.1 = true →
        (e.2.1, e.2.2) ∈ l) := by
  have hB : B ∈ s.buckets := by
    by_contra hB
    simp [listObjects, hB] at h
  simp only [listObjects] at h
  rw [if_pos hB] at h
  injection h with h
  subst h
  refine ⟨List.sorted_insertionSort keyLe _, ?_, ?_⟩
  · intro e he
    rw [List.mem_insertionSort] at he
    obtain ⟨x, hx, hfx⟩ := List.mem_filterMap.mp he
    by_cases hc : (x.1 == B && strIsPre pre x.2.1) = true
    · rw [if_pos hc] at hfx
      rw [Bool.and_eq_true] at hc
      obtain ⟨hb, hp⟩ := hc
      have hxB : x.1 = B := by simpa using hb
      injection hfx with hfx
      subst hfx
      refine ⟨hp, ?_⟩
      have hex : (B, x.2.1, x.2.2) = x := by rw [← hxB]
      rw [hex]
      exact hx
    · rw [if_neg hc] at hfx
      exact Option.noConfusion hfx
  · intro e he h1 h2
    rw [List.mem_insertionSort]
    refine List.mem_filterMap.mpr ⟨e, he, ?_⟩
    rw [if_pos (by simp [h1, h2])]

/-- Witness for C5: the demo's three-key bucket listed with prefix
`dir1/` yields exactly `dir1/file1.txt` then `dir1/file2.txt`. -/
theorem C5_listing_sorted_filtered_witness :
    listObjects wState3 "b" "dir1/" = .ok wList5 ∧
      (wList5.Sorted keyLe ∧
        (∀ e ∈ wList5, strIsPre "dir1/" e.1 = true ∧
          ("b", e.1, e.2) ∈ wState3.index) ∧
        (∀ e ∈ wState3.index, e.1 = "b" → strIsPre "dir1/" e.2.1 = true →
          (e.2.1, e.2.2) ∈ wList5)) :=
  ⟨by decide, C5_listing_sorted_filtered wState3 "b" "dir1/" wList5 (by decide)⟩

/-- C6: deleting a bucket that holds at least one object fails with
`BucketNotEmpty` and leaves the state exactly unchanged; once the bucket
holds no object, deleting it succeeds. -/
theorem C6_delete_bucket_guard :
    (∀ (s : S3State) (B : String), B ∈ s.buckets →
        s.index.any (fun e => e.1 == B) = true →
        execOp s (.deleteBucket B) = (s, .error .bucketNotEmpty)) ∧
    (∀ (s : S3State) (B : String), B ∈ s.buckets →
        s.index.any (fun e => e.1 == B) = false →
        ∃ s2, deleteBucket s B = .ok s2 ∧
          execOp s (.deleteBucket B) = (s2, .ok .unit)) := by
  constructor
  · intro s B hB hne
    simp [execOp, deleteBucket, hB, hne]
  · intro s B hB hempty
    refine ⟨{ s with buckets := s.buckets.erase B }, ?_, ?_⟩
    · simp [deleteBucket, hB, hempty]
    · simp [execOp, deleteBucket, hB, hempty]

/-- Witness for C6: both branches at concrete stores — a one-object
bucket rejects deletion unchanged, an emptied bucket deletes. -/
theorem C6_delete_bucket_guard_witness :
    ("b" ∈ wState2.buckets ∧ wState2.index.any (fun e => e.1 == "b") = true ∧
        execOp wState2 (.deleteBucket "b") = (wState2, .error .bucketNotEmpty)) ∧
      ("b" ∈ wState1.buckets ∧ wState1.index.any (fun e => e.1 == "b") = false ∧
        ∃ s2, deleteBucket wState1 "b" = .ok s2 ∧
          execOp wState1 (.deleteBucket "b") = (s2, .ok .unit)) :=
  ⟨⟨by decide, by decide, C6_delete_bucket_guard.1 wState2 "b" (by decide) (by decide)⟩,
   ⟨by decide, by decide, C6_delete_bucket_guard.2 wState1 "b" (by decide) (by decide)⟩⟩

/-- C7: if `putObject` fails at any injected failure point — including
after the partial content write and before the metadata commit — the
state observable through `getObject`, `headObject` and `listObjects` is
exactly the state before the put: no new version is ever half-visible. -/
theorem C7_put_failure_atomic (s : S3State) (B K : String)
    (payload : List Nat) (k : Nat) (B2 K2 pre : String)
    (hwf : RefsValid s)
    (hfail : ((putObjectF s B K payload (some k)).2).isSome = true) :
    getObject (putObjectF s B K payload (some k)).1 B2 K2 =
        getObject s B2 K2 ∧
      headObject (putObjectF s B K payload (some k)).1 B2 K2 =
        headObject s B2 K2 ∧
      listObjects (putObjectF s B K payload (some k)).1 B2 pre =
        listObjects s B2 pre := by
  by_cases hB : B ∈ s.buckets
  · match k with
    | 0 => simp [putObjectF, hB]
    | 1 =>
      have hst : (putObjectF s B K payload (some 1)).1 =
          { s with contentStore := s.contentStore ++ [payload] } := by
        simp [putObjectF, hB]
      rw [hst]
      refine ⟨?_, rfl, rfl⟩
      simp only [getObject]
      cases hf : s.index.find? (entryMatches B2 K2) with
      | none => rfl
      | some e =>
        have hlt := hwf e (List.mem_of_find?_eq_some hf)
        dsimp only
        rw [List.getElem?_append_left hlt]
    | (n+2) =>
      exfalso
      simp [putObjectF, hB] at hfail
  · simp [putObjectF, hB]

/-- Witness for C7: a failure injected after the content write at a
concrete one-object store leaves get, head and list unchanged. -/
theorem C7_put_failure_atomic_witness :
    RefsValid wState2 ∧
      ((putObjectF wState2 "b" "k2" [5] (some 1)).2).isSome = true ∧
      (getObject (putObjectF wState2 "b" "k2" [5] (some 1)).1 "b" "k" =
          getObject wState2 "b" "k" ∧
        headObject (putObjectF wState2 "b" "k2" [5] (some 1)).1 "b" "k" =
          headObject wState2 "b" "k" ∧
        listObjects (putObjectF wState2 "b" "k2" [5] (some 1)).1 "b" "" =
          listObjects wState2 "b" "") :=
  ⟨by decide, by decide,
    C7_put_failure_atomic wState2 "b" "k2" [5] 1 "b" "k" "" (by decide) (by decide)⟩

/-- C2, counterexample to the claim as stated: the demo payload
`b"Hello, geckos3 from Python!"` has 27 bytes, so the single listing
entry after the upload reports size 27, not 28. -/
theorem C2_demo_size_counterexample :
    demoPayload.length = 27 ∧
      listingSizes (execOp demoS2 (.listObjects "testbucket" "")).2 = [27] ∧
      (27 : Nat) ≠ 28 := by
  refine ⟨by decide, by decide, by decide⟩

/-- C2 (amended: the listed size is 27, the byte length of the payload):
the end-to-end demo scenario — create `testbucket`, put `test-file.txt`
with the demo payload, list (one entry of size 27), get the same bytes
back, delete the object, then delete the bucket successfully. -/
theorem C2_end_to_end_demo :
    (execOp S3State.init (.createBucket "testbucket")).2 = .ok .unit ∧
      (execOp demoS1 (.putObject "testbucket" "test-file.txt" demoPayload)).2 =
        .ok .unit ∧
      (execOp demoS2 (.listObjects "testbucket" "")).2 =
        .ok (.listing [("test-file.txt", ⟨27, hashBytes demoPayload, 0⟩)]) ∧
      (execOp demoS2 (.getObject "testbucket" "test-file.txt")).2 =
        .ok (.gotObject demoPayload ⟨27, hashBytes demoPayload, 0⟩) ∧
      (execOp demoS2 (.deleteObject "testbucket" "test-file.txt")).2 =
        .ok .unit ∧
      (execOp demoS3 (.deleteBucket "testbucket")).2 = .ok .unit := by
  refine ⟨by decide, by decide, by decide, by decide, by decide, by decide⟩

/-- Helper for C9: an exhausted oracle reports no failing call. -/
theorem firstFalse_nil : ∀ ops : List S3Op, firstFalse ops [] = none
  | [] => rfl
  | _ :: _ => rfl

/-- Helper for C9: when no call fails, the whole sequence is issued and
the run completes. -/
theorem runScriptAux_complete :
    ∀ (ops : List S3Op) (outs : List Bool),
      firstFalse ops outs = none → runScriptAux ops outs = (ops, true)
  | [], _, _ => rfl
  | _ :: os, [], _ => by
    have ih := runScriptAux_complete os [] (firstFalse_nil os)
    simp [runScriptAux, ih]
  | _ :: os, b :: bs, h => by
    cases b with
    | false => exact absurd h (by simp [firstFalse])
    | true =>
      have h2 : (firstFalse os bs).map (· + 1) = none := h
      have h3 : firstFalse os bs = none := by
        cases hf : firstFalse os bs with
        | none => rfl
        | some k => rw [hf] at h2; simp at h2
      have ih := runScriptAux_complete os bs h3
      simp [runScriptAux, ih]

/-- Helper for C9: when call `k` is the first to fail, exactly the first
`k + 1` calls are issued and the run aborts. -/
theorem runScriptAux_fails :
    ∀ (ops : List S3Op) (outs : List Bool) (k : Nat),
      firstFalse ops outs = some k →
      runScriptAux ops outs = (ops.take (k + 1), false)
  | [], _, _, h => by simp [firstFalse] at h
  | _ :: _, [], _, h => by rw [firstFalse_nil] at h; exact Option.noConfusion h
  | o :: os, b :: bs, k, h => by
    cases b with
    | false =>
      have h2 : (some 0 : Option Nat) = some k := h
      injection h2 with h2
      subst h2
      simp [runScriptAux, List.take]
    | true =>
      have h2 : (firstFalse os bs).map (· + 1) = some k := h
      cases hf : firstFalse os bs with
      | none => rw [hf] at h2; exact Option.noConfusion h2
      | some k2 =>
        rw [hf] at h2
        simp at h2
        subst h2
        have ih := runScriptAux_fails os bs k2 hf
        simp [runScriptAux, ih, List.take]

/-- C9: the demo script, run against any oracle of call outcomes — if
every S3 call succeeds, it issues the whole sequence, prints no error and
exits with status 0; if some call raises, it issues exactly the calls up
to and including the first failing one, prints the error to stderr and
exits with status 1. -/
theorem C9_script_control_flow (outs : List Bool) :
    (firstFalse scriptOps outs = none →
        scriptRun outs = ⟨scriptOps, 0, false⟩) ∧
      (∀ k, firstFalse scriptOps outs = some k →
        scriptRun outs = ⟨scriptOps.take (k + 1), 1, true⟩) := by
  constructor
  · intro h
    simp [scriptRun, runScriptAux_complete scriptOps outs h]
  · intro k h
    simp [scriptRun, runScriptAux_fails scriptOps outs k h]

/-- Witness for C9: the all-success run exits 0 having issued all 15
calls; a run whose third call raises exits 1 having issued exactly 3. -/
theorem C9_script_control_flow_witness :
    (firstFalse scriptOps [] = none ∧
        scriptRun [] = ⟨scriptOps, 0, false⟩) ∧
      (firstFalse scriptOps [true, true, false] = some 2 ∧
        scriptRun [true, true, false] = ⟨scriptOps.take 3, 1, true⟩) :=
  ⟨⟨by decide, (C9_script_control_flow []).1 (by decide)⟩,
   ⟨by decide, (C9_script_control_flow [true, true, false]).2 2 (by decide)⟩⟩

/-- C10: in the script's successful run the keys deleted are exactly the
keys previously put (in particular `testbucket` holds no object when
`delete_bucket` is issued), the bucket is created by the first call and
deleted by the last, and every object-level call lies strictly between
the two. -/
theorem C10_script_cleanup_discipline :
    putKeysOf scriptOps =
        ["test-file.txt", "dir1/file1.txt", "dir1/file2.txt", "dir2/file3.txt"] ∧
      delKeysOf scriptOps =
        ["test-file.txt", "dir1/file1.txt", "dir1/file2.txt", "dir2/file3.txt"] ∧
      (execOps S3State.init (scriptOps.take 14)).index.filter
          (fun e => e.1 == "testbucket") = [] ∧
      scriptOps[0]? = some (.createBucket "testbucket") ∧
      scriptOps[14]? = some (.deleteBucket "testbucket") ∧
      scriptOps.length = 15 ∧
      (∀ i, ∀ h : i < scriptOps.length,
        isObjectOp (scriptOps.get ⟨i, h⟩) = true → 0 < i ∧ i < 14) := by
  refine ⟨by decide, by decide, by decide, by decide, by decide, by decide, by decide⟩
